import Mathlib

/-!
Shallow embedding of the `dialectica` repository (two Streamlit scripts,
`src/sl_llamachat.py` and `src/sl_llm_philosopher.py`) and proofs of the
frozen claims about it.

Strings are modelled with Lean `String`; Python f-string templates become
explicit `++` concatenations.  The model client (`ollama.chat` wrapped by
`LlamaModel.get_response`) is modelled by its outcome, an
`Except String String` (error message or response text).  Wall-clock reads
(`time.time()`) are modelled as rational-valued clock readings supplied to
the functions that perform them, in the order the source reads the clock.
The diagnostic log (`logging.error`) is modelled as a list of strings
threaded through `generate_response`.
-/

namespace Dialectica

/-- `substrOf a b` : `a` occurs in `b` as a contiguous substring. -/
def substrOf (a b : String) : Prop := ∃ s t, s ++ a ++ t = b

/-- String append is associative (via the underlying character lists). -/
theorem strAppendAssoc (a b c : String) : a ++ b ++ c = a ++ (b ++ c) := by
  apply String.ext
  simp [String.data_append, List.append_assoc]

/-- Python `str(tone)` for the tone argument: `None` prints as "None",
a string prints as itself. -/
def pyStrTone : Option String → String
  | none => "None"
  | some t => t

/-- ASCII whitespace recognised by Python `str.strip()`. -/
def isPySpace (c : Char) : Bool :=
  c = ' ' ∨ c = '\t' ∨ c = '\n' ∨ c = '\x0d' ∨ c = '\x0b' ∨ c = '\x0c'

/-- Python `str.strip()` on a character list: drop leading and trailing
whitespace. -/
def pyStripList (l : List Char) : List Char :=
  ((l.dropWhile isPySpace).reverse.dropWhile isPySpace).reverse

/-- Python `str.strip()`. -/
def pyStrip (s : String) : String := String.mk (pyStripList s.data)

/-- Iterating a Python text file yields its lines, each keeping its
trailing newline; a final fragment without a newline is kept too. -/
def splitLinesAux : List Char → List Char → List (List Char)
  | [], acc => if acc = [] then [] else [acc.reverse]
  | c :: rest, acc =>
    if c = '\n' then (acc.reverse ++ ['\n']) :: splitLinesAux rest []
    else splitLinesAux rest (c :: acc)

/-- The lines of a file with content `s`, as Python file iteration yields
them. -/
def pyLines (s : String) : List String :=
  (splitLinesAux s.data []).map String.mk

/-- Embedding of `load_questions` (identical in both scripts, lines 52-55):
`[line.strip() for line in file if line.strip()]` over the file content. -/
def load_questions (content : String) : List String :=
  (pyLines content).filterMap fun line =>
    if pyStrip line = "" then none else some (pyStrip line)

/-- The fixed user-facing error message in `generate_response`. -/
def errorMessage : String := "Sorry, I couldn\x27t generate a response."

/-- The value returned by `generate_response` in either script: on success
a dict holding the response text, the input text and the elapsed time; on
failure the 4-tuple `(errorMessage, 0, 0, 0)`.  The constructors keep the
two shapes distinct, as the source does. -/
inductive GenResult where
  | success (response input : String) (time : ℚ)
  | failure (msg : String) (a b c : Int)
deriving DecidableEq

/-- Embedding of `generate_response` (`sl_llamachat.py` lines 32-47 and
`sl_llm_philosopher.py` lines 33-48; the two differ only in the dict key
spelling, which `lookupField` below accounts for).  `outcome` is the
result of the adapter call `llm.get_response(user_input)`; `t1` and `t2`
are the `time.time()` readings taken immediately before and after that
call; `log` is the diagnostic log before the call.  The function is total:
both branches return a value, so no exception escapes to the caller. -/
def generate_response (outcome : Except String String) (userInput : String)
    (t1 t2 : ℚ) (log : List String) : GenResult × List String :=
  match outcome with
  | .ok resp => (GenResult.success resp userInput (t2 - t1), log)
  | .error e =>
      (GenResult.failure errorMessage 0 0 0,
       log ++ ["Error generating response: " ++ e])

/- ## Prompt builders -/

/-- First fixed fragment of the tone prompt template (shared verbatim by
both scripts). -/
def promptPre : String :=
  "You are an expert in discussing philosophical questions. Your tone is: **"

/-- Middle fixed fragment of the tone prompt template. -/
def promptMid : String :=
  "** in nature. Please provide a thoughtful and detailed answer to the following question: **"

/-- Final fixed fragment of the tone prompt template. -/
def promptSuf : String := "**"

/-- Embedding of `build_prompt` from `sl_llamachat.py` (lines 81-89):
always applies the template; there is no neutral branch in this script. -/
def llamaBuildPrompt (tone : Option String) (userInput : String) : String :=
  promptPre ++ pyStrTone tone ++ promptMid ++ userInput ++ promptSuf

/-- Embedding of `build_prompt` from `sl_llm_philosopher.py` (lines
85-96): returns the question unchanged when `tone is None or tone ==
"Neutral"`, otherwise applies the same template. -/
def philoBuildPrompt (tone : Option String) (userInput : String) : String :=
  if tone = none ∨ tone = some "Neutral" then userInput
  else promptPre ++ pyStrTone tone ++ promptMid ++ userInput ++ promptSuf

/- ## History store and display -/

/-- A field value read out of a result record: the dict values in the
source are strings or the elapsed-time float. -/
inductive Field where
  | str (s : String)
  | num (q : ℚ)
deriving DecidableEq

/-- Python subscripting `entry[key]` on a `generate_response` value, with
the key spelling of `sl_llamachat.py` ("Response"/"Input"/"Time").  On the
success dict the three keys are present; on the failure 4-tuple a string
subscript raises `TypeError`, modelled as `none`. -/
def lookupField : GenResult → String → Option Field
  | GenResult.success resp inp t, k =>
      if k = "Response" then some (Field.str resp)
      else if k = "Input" then some (Field.str inp)
      else if k = "Time" then some (Field.num t)
      else none
  | GenResult.failure _ _ _ _, _ => none

/-- Embedding of one iteration of `display_chat_history`
(`sl_llamachat.py` lines 57-64): reads `entry['Input']`,
`entry['Response']` (twice, once for the word count) and `entry['Time']`
and renders four lines; `none` when any subscript raises. -/
def renderEntry (e : GenResult) : Option (List String) :=
  match lookupField e "Input", lookupField e "Response", lookupField e "Time" with
  | some (Field.str inp), some (Field.str resp), some (Field.num t) =>
      some ["**👤 User**: " ++ inp,
            "**🦙 Llama**: " ++ resp,
            "**Word Count** : " ++ toString resp.length,
            "**Time Taken** : " ++ toString t]
  | _, _, _ => none

/-- Renders a list of entries in order, failing as soon as one entry
fails (a raised `TypeError` aborts the whole loop). -/
def renderAll : List GenResult → Option (List String)
  | [] => some []
  | e :: rest =>
      match renderEntry e, renderAll rest with
      | some lines, some more => some (lines ++ more)
      | _, _ => none

/-- Embedding of `display_chat_history` (`sl_llamachat.py` lines 57-64):
iterates `reversed(st.session_state.chat_history)` rendering each entry.
-/
def display_chat_history (history : List GenResult) : Option (List String) :=
  renderAll history.reverse

/-- `st.session_state.chat_history.append(result)`. -/
def historyAppend {α : Type} (h : List α) (r : α) : List α := h ++ [r]

/-- `st.session_state.chat_history = []` (the Clear History button). -/
def historyClear {α : Type} (_h : List α) : List α := []

/- ## The llamachat submit flow -/

/-- Observable outcome of one `main` pass in `sl_llamachat.py`: the
prompts passed to the adapter in order, the prompt of the call whose
result is appended to history (if any), and the history after the pass.
-/
structure LlamaFlow where
  calls : List String
  answerPrompt : Option String
  history : List GenResult
deriving DecidableEq

/-- Embedding of the submit path of `main` in `sl_llamachat.py` (lines
136-148).  The code first builds `prompt = build_prompt(selected_tone,
user_input)` and calls `generate_response(llama, prompt)` discarding the
result (line 140); when `user_input` is non-empty it then calls
`generate_response(llama, user_input)` — the raw question — and appends
that result to history.  `adapter` maps a prompt to the outcome of
`llama.get_response` on it; `t1 t2 t3 t4` are the clock readings of the
two calls. -/
def llamaSubmit (adapter : String → Except String String)
    (t1 t2 t3 t4 : ℚ) (tone : Option String) (userInput : String)
    (history : List GenResult) : LlamaFlow :=
  let prompt := llamaBuildPrompt tone userInput
  let _r1 := generate_response (adapter prompt) prompt t1 t2 []
  if userInput = "" then
    { calls := [prompt], answerPrompt := none, history := history }
  else
    let r2 := generate_response (adapter userInput) userInput t3 t4 []
    { calls := [prompt, userInput], answerPrompt := some userInput,
      history := historyAppend history r2.1 }

/- ## The philosopher submit flow (classification variant) -/

/-- The Python `str()` rendering of the `CLASSES` category list as it is
interpolated into the classification prompt.  (In the source the list
literal at line 67 carries a stray quote inside the Epistemology entry;
the spec flags it as a typo.  Its exact text plays no role in any claim:
it is an opaque fragment of the classification prompt.) -/
def classesRepr : String :=
  "[\x27Metaphysics\x27, \x22Epistemology\x27, Ethics\x22, \x27Aesthetics\x27, \x27Logic and Reasoning\x27, \x27Political Philosophy\x27, \x27Philosophy of Science\x27, \x27Philosophy of Religion\x27, \x27Philosophy of Mind\x27, \x27Philosophy of Language\x27, \x27Philosophy of Time\x27]"

/-- The classification prompt built in `main` of `sl_llm_philosopher.py`
(line 152): an f-string embedding the question and `CLASSES`. -/
def classQuestion (question : String) : String :=
  "Given the question: " ++ question ++
    ", what is the most accurate classification? Choose from the following categories: "
    ++ classesRepr ++ "."

/-- The record appended to history by the philosopher flow: the answer
dict (`response`, `input`, `time`) with the classification text added
under the extra key (`result['class'] = ...`, line 162). -/
structure PhiloRecord where
  response : String
  input : String
  time : ℚ
  cls : String
deriving DecidableEq

/-- Observable outcome of one submit pass of `main` in
`sl_llm_philosopher.py`: the prompts passed to the adapter in order, the
history afterwards, and whether an uncaught exception escaped `main`. -/
structure PhiloFlow where
  calls : List String
  history : List PhiloRecord
  crashed : Bool
deriving DecidableEq

/-- Embedding of the submit path of `main` in `sl_llm_philosopher.py`
(lines 152-163).  For a non-empty question the code calls
`generate_response` on the classification prompt, subscripts the result
with `['response']` (which raises `TypeError` on the failure tuple,
modelled by `crashed := true`), then calls `generate_response` on
`build_prompt(tone, question)`, assigns `result['class']` (again a
`TypeError` on the failure tuple) and appends the record.  `t1 t2` and
`t3 t4` are the clock readings of the two calls. -/
def philoSubmit (adapter : String → Except String String)
    (t1 t2 t3 t4 : ℚ) (tone : Option String) (question : String)
    (history : List PhiloRecord) : PhiloFlow :=
  if question = "" then { calls := [], history := history, crashed := false }
  else
    let cq := classQuestion question
    let r1 := generate_response (adapter cq) cq t1 t2 []
    match r1.1 with
    | GenResult.failure _ _ _ _ =>
        { calls := [cq], history := history, crashed := true }
    | GenResult.success cresp _ _ =>
        let p := philoBuildPrompt tone question
        let r2 := generate_response (adapter p) p t3 t4 []
        match r2.1 with
        | GenResult.failure _ _ _ _ =>
            { calls := [cq, p], history := history, crashed := true }
        | GenResult.success aresp ainp atime =>
            { calls := [cq, p],
              history := historyAppend history ⟨aresp, ainp, atime, cresp⟩,
              crashed := false }

/-- An adapter that fails on every prompt (used for concrete failure
scenarios). -/
def alwaysFail : String → Except String String :=
  fun _ => Except.error "boom"

/-- An adapter that succeeds on every prompt, echoing it (used for
concrete success scenarios). -/
def okEcho : String → Except String String :=
  fun s => Except.ok ("R:" ++ s)

/- ## Helper lemmas -/

/-- A string placed between two others is a substring of the whole. -/
theorem substrOf_middle (a s b : String) : substrOf s (a ++ s ++ b) :=
  ⟨a, b, rfl⟩

/-- The comprehension body of `load_questions`: filtering by the stripped
line and mapping to the stripped line is filter-after-map. -/
theorem filterMapStripEq (ls : List String) :
    (ls.filterMap fun line =>
      if pyStrip line = "" then none else some (pyStrip line)) =
    (ls.map pyStrip).filter (fun s => !(s == "")) := by
  induction ls with
  | nil => rfl
  | cons x xs ih =>
    simp only [List.filterMap_cons, List.map_cons, List.filter_cons]
    by_cases hx : pyStrip x = ""
    · simp [hx, ih]
    · simp [hx, ih]

/- ## Claims -/

/-- C1: for every failing adapter call, `generate_response` catches the
exception and returns the degraded result whose numeric fields are all
exactly zero, a log entry is produced, and no exception escapes to the
caller (the embedding is a total function: the error branch returns a
value). -/
theorem C1_generate_response_failure (e userInput : String) (t1 t2 : ℚ)
    (log : List String) :
    (generate_response (Except.error e) userInput t1 t2 log).1 =
      GenResult.failure errorMessage 0 0 0 ∧
    (generate_response (Except.error e) userInput t1 t2 log).2 =
      log ++ ["Error generating response: " ++ e] :=
  ⟨rfl, rfl⟩

/-- C2 counterexample: in `sl_llamachat.py`, `build_prompt` has no
neutral branch, so with tone "Neutral" it does not return the question
unchanged — the claim as stated (covering both scripts) is false. -/
theorem C2_counterexample :
    ¬ (llamaBuildPrompt (some "Neutral") "q" = "q") := by
  decide

/-- C2 amended: in `sl_llm_philosopher.py`, `build_prompt` returns the
question string unchanged for the neutral sentinel (`None` or
"Neutral"); the `sl_llamachat.py` variant lacks the neutral branch and
always applies the template. -/
theorem C2_philo_neutral (q : String) :
    philoBuildPrompt none q = q ∧ philoBuildPrompt (some "Neutral") q = q := by
  constructor <;> simp [philoBuildPrompt]

/-- C6: the history store preserves insertion order — appending `a` then
`b` yields the prior contents followed by `a` then `b` — and clearing
empties it wholesale regardless of prior contents. -/
theorem C6_history_order_and_clear {α : Type} (h : List α) (a b : α) :
    historyAppend (historyAppend h a) b = h ++ [a, b] ∧
    historyClear (historyAppend (historyAppend h a) b) = ([] : List α) ∧
    historyClear h = ([] : List α) := by
  refine ⟨?_, rfl, rfl⟩
  simp [historyAppend]

/-- C7: `load_questions` on the file content "Q1\n\nQ2\n  \nQ3\n" returns
["Q1", "Q2", "Q3"]; in general it returns the stripped lines that are
non-blank, in file order (blank and whitespace-only lines dropped). -/
theorem C7_load_questions :
    load_questions "Q1\n\nQ2\n  \nQ3\n" = ["Q1", "Q2", "Q3"] ∧
    ∀ content : String, load_questions content =
      ((pyLines content).map pyStrip).filter (fun s => !(s == "")) := by
  constructor
  · rfl
  · intro content
    exact filterMapStripEq (pyLines content)

/-- C3: for every tone other than the neutral sentinel and every
question, the output of `build_prompt` (both scripts) contains the tone
name and the original question verbatim as substrings. -/
theorem C3_build_prompt_contains (tone q : String) (h : tone ≠ "Neutral") :
    substrOf tone (llamaBuildPrompt (some tone) q) ∧
    substrOf q (llamaBuildPrompt (some tone) q) ∧
    substrOf tone (philoBuildPrompt (some tone) q) ∧
    substrOf q (philoBuildPrompt (some tone) q) := by
  have hl : llamaBuildPrompt (some tone) q =
      promptPre ++ tone ++ (promptMid ++ q ++ promptSuf) := by
    simp [llamaBuildPrompt, pyStrTone, strAppendAssoc]
  have hl2 : llamaBuildPrompt (some tone) q =
      (promptPre ++ tone ++ promptMid) ++ q ++ promptSuf := by
    simp [llamaBuildPrompt, pyStrTone, strAppendAssoc]
  have hp : philoBuildPrompt (some tone) q = llamaBuildPrompt (some tone) q := by
    simp [philoBuildPrompt, llamaBuildPrompt, h]
  refine ⟨?_, ?_, ?_, ?_⟩
  · rw [hl]; exact substrOf_middle _ _ _
  · rw [hl2]; exact substrOf_middle _ _ _
  · rw [hp, hl]; exact substrOf_middle _ _ _
  · rw [hp, hl2]; exact substrOf_middle _ _ _

/-- C3 witness: instantiation at tone "Analytical" and question "Why?". -/
theorem C3_build_prompt_contains_witness :
    ("Analytical" : String) ≠ "Neutral" ∧
    (substrOf "Analytical" (llamaBuildPrompt (some "Analytical") "Why?") ∧
     substrOf "Why?" (llamaBuildPrompt (some "Analytical") "Why?") ∧
     substrOf "Analytical" (philoBuildPrompt (some "Analytical") "Why?") ∧
     substrOf "Why?" (philoBuildPrompt (some "Analytical") "Why?")) :=
  ⟨by decide, C3_build_prompt_contains "Analytical" "Why?" (by decide)⟩

/-- C4 counterexample: with an adapter that fails, a submitted non-empty
question triggers only one adapter call (the classification call; the
subsequent subscript on the failure tuple raises `TypeError`) and no
record is appended — the claim as stated, quantified over every
submission, is false. -/
theorem C4_counterexample :
    (philoSubmit alwaysFail 0 0 0 0 none "Q" []).calls.length = 1 ∧
    (philoSubmit alwaysFail 0 0 0 0 none "Q" []).history = [] ∧
    (philoSubmit alwaysFail 0 0 0 0 none "Q" []).crashed = true :=
  ⟨rfl, rfl, rfl⟩

/-- C4 amended: when both adapter calls succeed, a submitted non-empty
question triggers exactly two adapter calls in order — the
classification call first, then the answer call on the built prompt —
and the single record appended to history carries the answer text and
the classification text as separate fields.  When either call fails the
flow instead raises `TypeError` before appending (after one call if the
classification call fails, after two if the answer call fails). -/
theorem C4_two_calls_success (adapter : String → Except String String)
    (t1 t2 t3 t4 : ℚ) (tone : Option String) (question c a : String)
    (history : List PhiloRecord) (hq : question ≠ "")
    (h1 : adapter (classQuestion question) = Except.ok c)
    (h2 : adapter (philoBuildPrompt tone question) = Except.ok a) :
    philoSubmit adapter t1 t2 t3 t4 tone question history =
      { calls := [classQuestion question, philoBuildPrompt tone question],
        history := history ++
          [⟨a, philoBuildPrompt tone question, t4 - t3, c⟩],
        crashed := false } := by
  unfold philoSubmit
  rw [if_neg hq]
  simp [h1, h2, generate_response, historyAppend]

/-- C4 witness: instantiation at the echoing adapter, neutral tone and
question "Q". -/
theorem C4_two_calls_success_witness :
    ("Q" : String) ≠ "" ∧
    okEcho (classQuestion "Q") = Except.ok ("R:" ++ classQuestion "Q") ∧
    okEcho (philoBuildPrompt none "Q") =
      Except.ok ("R:" ++ philoBuildPrompt none "Q") ∧
    philoSubmit okEcho 0 0 1 2 none "Q" [] =
      { calls := [classQuestion "Q", philoBuildPrompt none "Q"],
        history := [⟨"R:" ++ philoBuildPrompt none "Q",
          philoBuildPrompt none "Q", 2 - 1, "R:" ++ classQuestion "Q"⟩],
        crashed := false } :=
  ⟨by decide, rfl, rfl,
   C4_two_calls_success okEcho 0 0 1 2 none "Q"
     ("R:" ++ classQuestion "Q") ("R:" ++ philoBuildPrompt none "Q") []
     (by decide) rfl rfl⟩

/-- C5: in `sl_llamachat.py` the call whose result is appended to history
receives the raw question, not the composed prompt — at tone "Analytical"
and question "Why?" the recorded answer call executes "Why?", which
differs from `build_prompt("Analytical", "Why?")`; the
`sl_llm_philosopher.py` flow does pass the composed prompt to its answer
call. -/
theorem C5_llamachat_raw_question :
    (llamaSubmit okEcho 0 0 0 0 (some "Analytical") "Why?" []).answerPrompt =
      some "Why?" ∧
    (llamaSubmit okEcho 0 0 0 0 (some "Analytical") "Why?" []).calls =
      [llamaBuildPrompt (some "Analytical") "Why?", "Why?"] ∧
    ¬ ("Why?" = llamaBuildPrompt (some "Analytical") "Why?") ∧
    (philoSubmit okEcho 0 0 0 0 (some "Analytical") "Why?" []).calls =
      [classQuestion "Why?", philoBuildPrompt (some "Analytical") "Why?"] :=
  ⟨rfl, rfl, by decide, rfl⟩

/-- C8: `generate_response` times the call with `time.time()`, a wall
clock with no monotonicity guarantee; when the clock reads 10 before the
call and 4 after (system clock stepped back), the successful record's
elapsed time is 4 − 10 = −6, a negative number — contradicting the
claimed non-negativity (the spec itself requires a monotonic clock). -/
theorem C8_negative_elapsed :
    (generate_response (Except.ok "resp") "q" 10 4 []).1 =
      GenResult.success "resp" "q" (4 - 10) ∧ ((4 : ℚ) - 10 < 0) :=
  ⟨rfl, by norm_num⟩

/-- C9 counterexample: on a readable file containing only a
whitespace-only line, `load_questions` returns the empty list — the
claimed non-emptiness fails. -/
theorem C9_counterexample : load_questions " \n" = [] :=
  rfl

/-- C9 amended: `load_questions` returns an ordered, possibly empty
sequence; the result is non-empty exactly when some line of the file has
non-whitespace content. -/
theorem C9_nonempty_iff (content : String) :
    load_questions content ≠ [] ↔
      ∃ line ∈ pyLines content, pyStrip line ≠ "" := by
  unfold load_questions
  rw [Ne, List.filterMap_eq_nil_iff]
  push_neg
  constructor
  · rintro ⟨line, hmem, hne⟩
    refine ⟨line, hmem, fun h0 => hne ?_⟩
    simp [h0]
  · rintro ⟨line, hmem, hne⟩
    exact ⟨line, hmem, by simp [hne]⟩

/-- C10: success and failure results of `generate_response` have
different shapes — the success dict answers the "Response", "Input" and
"Time" keys while the failure 4-tuple answers no string key — so key
lookup on a failure result fails, and a history ending in a failure
result is not renderable by `display_chat_history`. -/
theorem C10_failure_shape (m : String) (a b c : Int) (resp inp : String)
    (t : ℚ) (k : String) (h : List GenResult) :
    lookupField (GenResult.failure m a b c) k = none ∧
    lookupField (GenResult.success resp inp t) "Response" =
      some (Field.str resp) ∧
    lookupField (GenResult.success resp inp t) "Input" =
      some (Field.str inp) ∧
    lookupField (GenResult.success resp inp t) "Time" =
      some (Field.num t) ∧
    display_chat_history (historyAppend h (GenResult.failure m a b c)) =
      none := by
  refine ⟨rfl, rfl, rfl, rfl, ?_⟩
  unfold display_chat_history historyAppend
  rw [List.reverse_append]
  rfl

end Dialectica
